import Mathlib

/-!
Verification development for the Build-With-AWS notebooks.

The notebooks orchestrate calls to external managed services.  The definitions
below embed, directly from the notebook cells, the pieces of control flow and
configuration that carry the verifiable behaviour: the two polling loops of
`02_Create-Knowledge-Base.ipynb`, its resource-creation cells and document
download loop, and the retrieve / prompt-assembly / generation cells of the
query notebook.  External services are modelled as explicit parameters
(status traces, backends), so every definition is executable.
-/

namespace BWA

/-! ### Collection-status polling (02_Create-Knowledge-Base, cell "wait for collection creation") -/

/-- Status of an OpenSearch Serverless collection as reported by
`batch_get_collection`. -/
inductive CollStatus
  | CREATING
  | ACTIVE
  | FAILED
  | DELETING
deriving DecidableEq

/-- Embeds the collection polling loop:
```
response = aoss_client.batch_get_collection(names=[vector_store_name])
while (response['collectionDetails'][0]['status']) == 'CREATING':
    interactive_sleep(30)
    response = aoss_client.batch_get_collection(names=[vector_store_name])
```
`statuses i` is the status reported by the i-th call to `batch_get_collection`
(the call before the loop is poll 0).  `fuel` bounds how many loop iterations
we unfold; `none` means the loop is still running after `fuel` re-polls, and
`some s` means the loop exited with final observed status `s`.  The loop has
no deadline and its codomain has no timeout error: the only exit is a poll
returning a status other than `CREATING`. -/
def collectionWaitFrom (statuses : Nat → CollStatus) : Nat → Nat → Option CollStatus
  | 0, i => if statuses i = CollStatus.CREATING then none else some (statuses i)
  | fuel + 1, i =>
      if statuses i = CollStatus.CREATING then collectionWaitFrom statuses fuel (i + 1)
      else some (statuses i)

/-- The polling loop started at poll 0. -/
def collectionWait (statuses : Nat → CollStatus) (fuel : Nat) : Option CollStatus :=
  collectionWaitFrom statuses fuel 0

/-- A stubbed vector-store backend whose collection never leaves `CREATING`. -/
def stuckCollection : Nat → CollStatus := fun _ => CollStatus.CREATING

/-! ### Ingestion-job polling (02_Create-Knowledge-Base, cell "Get job") -/

/-- Status of an ingestion job as reported by `get_ingestion_job`. -/
inductive JobStatus
  | STARTING
  | IN_PROGRESS
  | COMPLETE
  | FAILED
deriving DecidableEq

/-- Embeds the ingestion-job polling loop:
```
job = start_job_response["ingestionJob"]
while(job['status']!='COMPLETE' ):
    get_job_response = bedrock_agent_client.get_ingestion_job(...)
    job = get_job_response["ingestionJob"]
    interactive_sleep(30)
```
`statuses 0` is the status in the `start_ingestion_job` response and
`statuses (i+1)` the status from the i-th `get_ingestion_job` call.  `none`
means the loop is still running after `fuel` re-polls; `some s` is the status
of the job the loop exits with.  The only exit condition is `status ==
'COMPLETE'`; `FAILED` does not stop the loop and no failure reason is ever
surfaced. -/
def ingestionWaitFrom (statuses : Nat → JobStatus) : Nat → Nat → Option JobStatus
  | 0, i => if statuses i = JobStatus.COMPLETE then some (statuses i) else none
  | fuel + 1, i =>
      if statuses i = JobStatus.COMPLETE then some (statuses i)
      else ingestionWaitFrom statuses fuel (i + 1)

/-- The ingestion polling loop started at the `start_ingestion_job` response. -/
def ingestionWait (statuses : Nat → JobStatus) (fuel : Nat) : Option JobStatus :=
  ingestionWaitFrom statuses fuel 0

/-- A job trace that reaches the terminal state `FAILED`:
`STARTING`, then `IN_PROGRESS`, then `FAILED` forever. -/
def failedJobTrace : Nat → JobStatus := fun i =>
  if i = 0 then JobStatus.STARTING
  else if i = 1 then JobStatus.IN_PROGRESS
  else JobStatus.FAILED

/-! ### Creation steps of the provisioning notebook (C3)

Which create calls one run of `02_Create-Knowledge-Base.ipynb` issues, given
which resources already exist on the backend. -/

/-- The resources the provisioning notebook creates. -/
inductive Resource
  | bucket
  | collection
  | index
  | knowledgeBase
  | dataSource
deriving DecidableEq

/-- Which of the notebook's target resources already exist on the backend. -/
structure ExistingResources where
  bucket : Bool
  collection : Bool
  index : Bool
  knowledgeBase : Bool
  dataSource : Bool
deriving DecidableEq

/-- The list of creation calls one run of the provisioning cells issues, in
cell order, given which resources already exist:

* bucket cell: `s3_client.head_bucket(...)` and `create_bucket` only in the
  `except ClientError` branch — the sole step guarded by an existence check;
* collection cell: `collection = aoss_client.create_collection(name=..., type='VECTORSEARCH')`
  is called unconditionally, with no lookup of an existing collection first;
* index cell: `oss_client.indices.create(...)` is called unconditionally inside
  `try:`; a `RequestError` from an existing index is caught only after the
  call was issued;
* knowledge-base cell: never issued — the cell defining
  `create_knowledge_base_func` (the `@retry`-wrapped
  `bedrock_agent_client.create_knowledge_base(...)`) is a markdown cell, so
  the call site `kb = create_knowledge_base_func()` raises `NameError` (the
  `except` prints it, then `pp.pprint(kb)` fails on the unbound `kb`) and
  `create_knowledge_base` is never invoked;
* data-source cell: never issued — `create_data_source` needs the unbound
  `kb['knowledgeBaseId']`, so it too raises `NameError` before any call.

Moreover the document download cell, which precedes the knowledge-base and
data-source cells, halts a straight run with `IndexError`
(see `downloadLoop`), so those cells are not even reached; the collection and
index cells run before the download cell. -/
def provisionCreateCalls (e : ExistingResources) : List Resource :=
  (if e.bucket then [] else [Resource.bucket]) ++
    [Resource.collection, Resource.index]

/-- A backend on which every resource the notebook provisions already exists. -/
def allExisting : ExistingResources :=
  ⟨true, true, true, true, true⟩

/-! ### Generation call (01_Basics-RAG-Powered-app / part_000, invoke cell) -/

/-- Error kinds a generation attempt can report. -/
inductive GenError
  | throttled
  | timeout
  | malformed
  | serviceRejected
deriving DecidableEq

/-- `retries={'max_attempts': 0}` from
`bedrock_config = Config(connect_timeout=120, read_timeout=120, retries={'max_attempts': 0})`,
the only retry configuration the notebook sets. -/
def bedrock_config_max_attempts : Nat := 0

/-- A bounded retry runner: at most `1 + budget` attempts, re-attempting only
throttling errors; `backend n` is the outcome of attempt `n`. -/
def retryCall (backend : Nat → Except GenError String) : Nat → Nat → Except GenError String
  | attempt, 0 => backend attempt
  | attempt, budget + 1 =>
      match backend attempt with
      | Except.error GenError.throttled => retryCall backend (attempt + 1) budget
      | r => r

/-- Embeds the generation step
`response = bedrock_client.invoke_model(body=sonnet_payload, ...)` followed by
response parsing: the notebook performs a single request with no retry loop of
its own, i.e. a retry budget of `bedrock_config_max_attempts = 0` extra
attempts; any error of the one attempt propagates. -/
def invoke_generate (backend : Nat → Except GenError String) : Except GenError String :=
  retryCall backend 0 bedrock_config_max_attempts

/-- A stubbed generation backend that throttles on attempts 0 and 1 and
succeeds from attempt 2 on. -/
def throttleTwiceBackend (answer : String) : Nat → Except GenError String := fun n =>
  if n < 2 then Except.error GenError.throttled else Except.ok answer

/-! ### Retrieve request (part_000, `retrieve` and the LangChain retriever) -/

/-- The search mode names accepted by the external retrieval service. -/
inductive SearchMode
  | AUTO
  | SEMANTIC
  | HYBRID
deriving DecidableEq

/-- The `vectorSearchConfiguration` part of a retrieval request. -/
structure VectorSearchConfiguration where
  numberOfResults : Nat
  overrideSearchType : SearchMode
deriving DecidableEq

/-- The request sent in the single external retrieval call. -/
structure RetrieveRequest where
  queryText : String
  knowledgeBaseId : String
  vectorSearchConfiguration : VectorSearchConfiguration
deriving DecidableEq

/-- Embeds the `retrieve` helper of the query notebook:
```
def retrieve(query, kbId, numberOfResults=5):
    return bedrock_agent_client.retrieve(
        retrievalQuery= {'text': query},
        knowledgeBaseId=kbId,
        retrievalConfiguration= {
            'vectorSearchConfiguration': {
                'numberOfResults': numberOfResults,
                'overrideSearchType': "HYBRID", # optional
            }})
```
The request it builds: `overrideSearchType` is the literal `"HYBRID"`; the
function has no search-mode parameter. -/
def retrieveRequest (query : String) (kbId : String) (numberOfResults : Nat) :
    RetrieveRequest :=
  ⟨query, kbId, ⟨numberOfResults, SearchMode.HYBRID⟩⟩

/-- The `retrieval_config` of the `AmazonKnowledgeBasesRetriever` cell:
`{"vectorSearchConfiguration": {"numberOfResults": 4, 'overrideSearchType': "SEMANTIC"}}`. -/
def langchainRetrievalConfig : VectorSearchConfiguration :=
  ⟨4, SearchMode.SEMANTIC⟩

/-! ### Retrieval results and context extraction (part_000) -/

/-- The `content` field of one entry of `response['retrievalResults']`. -/
structure RetrievedContent where
  text : String
deriving DecidableEq

/-- One entry of `response['retrievalResults']`: text content, source
location URI and relevance score (scores are decimal in the service response;
embedded as rationals). -/
structure RetrievalResult where
  content : RetrievedContent
  locationUri : String
  score : ℚ
deriving DecidableEq

/-- The full retrieval step of the query notebook:
`response = retrieve(query, kb_id, 5); retrievalResults = response['retrievalResults']` —
the backend's result list for the request built by `retrieve` is taken as is,
with no reordering, filtering or padding. -/
def retrieveCall (backend : RetrieveRequest → List RetrievalResult)
    (query kbId : String) (numberOfResults : Nat) : List RetrievalResult :=
  backend (retrieveRequest query kbId numberOfResults)

/-- Embeds `get_contexts`:
```
def get_contexts(retrievalResults):
    contexts = []
    for retrievedResult in retrievalResults:
        contexts.append(retrievedResult['content']['text'])
    return contexts
```
-/
def get_contexts (retrievalResults : List RetrievalResult) : List String :=
  retrievalResults.foldl (fun contexts r => contexts ++ [r.content.text]) []

/-- The stubbed backend of the spec's ordering test: three passages with
scores 0.9, 0.7, 0.5, in that order, for every request. -/
def threeScoreBackend : RetrieveRequest → List RetrievalResult := fun _ =>
  [⟨⟨"A"⟩, "s3://a", (9 : ℚ) / 10⟩,
   ⟨⟨"B"⟩, "s3://b", (7 : ℚ) / 10⟩,
   ⟨⟨"C"⟩, "s3://c", (5 : ℚ) / 10⟩]

/-! ### Chunking policy (02_Create-Knowledge-Base, `chunkingStrategyConfiguration`) -/

/-- The `fixedSizeChunkingConfiguration` record: `maxTokens` is a token count
and `overlapPercentage` a percentage (the overlap fraction is
`overlapPercentage / 100`). -/
structure FixedSizeChunkingConfiguration where
  maxTokens : Nat
  overlapPercentage : Nat
deriving DecidableEq

/-- Embeds
```
chunkingStrategyConfiguration = {
    "chunkingStrategy": "FIXED_SIZE",
    "fixedSizeChunkingConfiguration": {
        "maxTokens": 512,
        "overlapPercentage": 20
    }}
```
— the only chunking policy appearing in the repository; it is passed verbatim
to `create_data_source` as the `chunkingConfiguration`. -/
def chunkingStrategyConfiguration : FixedSizeChunkingConfiguration :=
  ⟨512, 20⟩

/-- All chunking policies the repository's code ever constructs or accepts. -/
def configuredChunkingPolicies : List FixedSizeChunkingConfiguration :=
  [chunkingStrategyConfiguration]

/-- The spec's invariant on a chunking policy: the overlap fraction lies in
`[0, 1)` and the max size is a positive token count. -/
def chunkingInvariant (c : FixedSizeChunkingConfiguration) : Prop :=
  0 < c.maxTokens ∧
    (0 : ℚ) ≤ (c.overlapPercentage : ℚ) / 100 ∧ (c.overlapPercentage : ℚ) / 100 < 1

/-! ### Document download loop (02_Create-Knowledge-Base, "Download data" cell) -/

/-- The `urls` list of the download cell, all 16 elements. -/
def urls : List String :=
  ["https://docs.aws.amazon.com/AWSEC2/latest/UserGuide/ec2-ug.pdf",
   "https://docs.aws.amazon.com/AmazonS3/latest/userguide/s3-userguide.pdf",
   "https://docs.aws.amazon.com/amazondynamodb/latest/developerguide/dynamodb-dg.pdf.pdf",
   "https://docs.aws.amazon.com/AmazonRDS/latest/UserGuide/index.html.pdf",
   "https://docs.aws.amazon.com/AmazonRDS/latest/AuroraUserGuide/aurora-ug.pdf",
   "https://docs.aws.amazon.com/lambda/latest/dg/lambda-dg.pdf",
   "https://docs.aws.amazon.com/vpc/latest/userguide/vpc-ug.pdf",
   "https://docs.aws.amazon.com/athena/latest/ug/athena-ug.pdf",
   "https://docs.aws.amazon.com/apigateway/latest/developerguide/apigateway-dg.pdf",
   "https://docs.aws.amazon.com/bedrock/latest/userguide/bedrock-ug.pdf",
   "https://docs.aws.amazon.com/AmazonCloudFront/latest/DeveloperGuide/AmazonCloudFront_DevGuide.pdf",
   "https://docs.aws.amazon.com/AmazonCloudWatch/latest/monitoring/acw-ug.pdf",
   "https://docs.aws.amazon.com/codewhisperer/latest/userguide/user-guide.pdf",
   "https://docs.aws.amazon.com/cognito/latest/developerguide/cognito-dg.pdf#cognito-user-identity-pools",
   "https://docs.aws.amazon.com/documentdb/latest/developerguide/developerguide.pdf",
   "https://docs.aws.amazon.com/pdfs/neptune/latest/userguide/neptune-ug.pdf#intro"]

/-- The `filenames` list of the download cell, as Python evaluates it: the
source writes `'Amazondocumentdb.pdf'` and `'neptune.pdf'` as adjacent string
literals with no comma between them, so they are concatenated into the single
element `"Amazondocumentdb.pdfneptune.pdf"` and the list has 14 elements, not
15 (and no element at all for the RDS user guide URL). -/
def filenames : List String :=
  ["AmazonEC2UserGuide.pdf",
   "AmazonS3UserGuide.pdf",
   "AmazonDynamodbDeveloperGuide.pdf",
   "AmazonAuroraUserGuide.pdf",
   "AmazonLambda.pdf",
   "AmazonVPC.pdf",
   "AmazonAthena.pdf",
   "AmazonAPIGateway.pdf",
   "AmazonBedrock.pdf",
   "AmazonCloudFront.pdf",
   "AmazonCloudWatch.pdf",
   "Amazoncodewhisperer.pdf",
   "Amazoncognito.pdf",
   "Amazondocumentdb.pdf" ++ "neptune.pdf"]

/-- Embeds the download loop
```
for idx, url in enumerate(urls):
    file_path = data_root + filenames[idx]
    urlretrieve(url, file_path)
```
iterating over the given url list from index `idx`: each completed iteration
records the pair `(url, filename)` that is fetched; `filenames[idx]` with
`idx` out of range raises `IndexError`, embedded as `Except.error idx` after
the pairs already downloaded are lost to the exception. -/
def downloadLoopFrom (fs : List String) :
    List String → Nat → List (String × String) →
      Except Nat (List (String × String))
  | [], _, acc => Except.ok acc.reverse
  | u :: rest, idx, acc =>
    match fs.get? idx with
    | none => Except.error idx
    | some f => downloadLoopFrom fs rest (idx + 1) ((u, f) :: acc)

/-- The download cell's loop over `urls` and `filenames`, from index 0. -/
def downloadLoop : Except Nat (List (String × String)) :=
  downloadLoopFrom filenames urls 0 []

/-- The pairs the loop has fetched before it stops, whether it finishes or
dies with an `IndexError`: iteration `idx` downloads `(urls[idx], filenames[idx])`
to disk before the next index is looked up. -/
def downloadedBeforeStop (fs : List String) : List String → Nat →
    List (String × String) → List (String × String)
  | [], _, acc => acc.reverse
  | u :: rest, idx, acc =>
    match fs.get? idx with
    | none => acc.reverse
    | some f => downloadedBeforeStop fs rest (idx + 1) ((u, f) :: acc)

/-! ### Prompt assembly (part_000, f-string prompt cell) -/

/-- The single-quote character. -/
def squote : Char := Char.ofNat 39

/-- The backslash character. -/
def backslash : Char := Char.ofNat 92

/-- The opening-brace character. -/
def lbraceChar : Char := Char.ofNat 123

/-- The closing-brace character. -/
def rbraceChar : Char := Char.ofNat 125

/-- Python `repr` escaping of one character inside a single-quoted string
literal, restricted to the escapes that can arise here: backslash, single
quote, newline, carriage return and tab are escaped, every other character
prints as itself.  (CPython switches to double quotes for strings containing
a single quote and escapes other control characters; no input in this
development contains those.) -/
def pyReprChar (c : Char) : List Char :=
  if c = backslash then [backslash, backslash]
  else if c = squote then [backslash, squote]
  else if c = Char.ofNat 10 then [backslash, Char.ofNat 110]
  else if c = Char.ofNat 13 then [backslash, Char.ofNat 114]
  else if c = Char.ofNat 9 then [backslash, Char.ofNat 116]
  else [c]

/-- Python `repr` of a string: its characters escaped, between single
quotes. -/
def pyReprStr (s : String) : String :=
  String.mk ([squote] ++ (s.toList.map pyReprChar).flatten ++ [squote])

/-- Python `str` of a list of strings, which is how the f-string `{contexts}`
renders the context list: `['a', 'b']`. -/
def pyStrOfList (xs : List String) : String :=
  "[" ++ String.intercalate ", " (xs.map pyReprStr) ++ "]"

/-- The f-string template text before the `{contexts}` interpolation. -/
def promptPre : String :=
  "\nHuman: Analyze the requirement in query to briefly introduce and suggest relevant AWS Products, AWS services and Amazon services. Write a step-by-step usage of Relevant AWS Services based on the project. Suggest blogs and relevant resources from AWS to support the user to work with Relevant AWS Services and How I can use these AWS Services in my project?\n<context>\n"

/-- The f-string template text between `{contexts}` and `{query}`. -/
def promptMid : String := "\n</context>\n\n<question>\n"

/-- The f-string template text after `{query}`. -/
def promptPost : String :=
  "\n</question>\n\nThe response should be specific and use statistics or numbers when possible.\n\nAssistant:"

/-- Embeds the prompt cell of the query notebook: the f-string
`prompt = f"""...{contexts}...{query}..."""` — the context list is rendered
with Python `str` and spliced into the context slot, the query string into
the question slot. -/
def buildPrompt (contexts : List String) (query : String) : String :=
  promptPre ++ pyStrOfList contexts ++ promptMid ++ query ++ promptPost

/-- Number of positions of `s` at which `pat` occurs as a substring. -/
def countOccs : List Char → List Char → Nat
  | [], pat => if pat.isPrefixOf ([] : List Char) then 1 else 0
  | c :: rest, pat =>
    (if pat.isPrefixOf (c :: rest) then 1 else 0) + countOccs rest pat

/-- Whether `pat` occurs as a substring of `s`. -/
def occursIn : List Char → List Char → Bool
  | [], pat => pat.isEmpty
  | c :: rest, pat => pat.isPrefixOf (c :: rest) || occursIn rest pat

/-- Whether `a` occurs in `s` and `b` occurs again strictly after the first
occurrence of `a` begins. -/
def containsBefore : List Char → List Char → List Char → Bool
  | [], _, _ => false
  | c :: rest, a, b =>
    if a.isPrefixOf (c :: rest) then occursIn rest b
    else containsBefore rest a b

/-! ### The second substitution `prompt.format(contexts, query)` (part_000,
payload cell)

A model of CPython `str.format` restricted to what these inputs exercise:
doubled braces are escapes, `{}` fields use automatic numbering, `{0}`-style
fields use manual numbering (mixing the two raises), a non-numeric field name
raises `KeyError` since no keyword arguments are passed, an unmatched brace
raises, and a replacement field is substituted by the positional argument's
string value (format specs after `:`/`!` select the argument by the name
before them; nested braces inside format specs are not modelled — no input
here has a format spec). -/

/-- The errors `str.format` can raise here. -/
inductive FormatError
  | unmatchedBrace
  | indexOutOfRange
  | keyErrorName
  | mixedNumbering
deriving DecidableEq

/-- Whether replacement fields seen so far were automatically or manually
numbered. -/
inductive NumberingMode
  | unset
  | auto
  | manual
deriving DecidableEq

/-- Splits a replacement field at its closing brace: `spanField l = some (f, r)`
when `l = f ++ rbraceChar :: r` and `f` has no closing brace. -/
def spanField : List Char → Option (List Char × List Char)
  | [] => none
  | c :: rest =>
    if c = rbraceChar then some ([], rest)
    else
      match spanField rest with
      | none => none
      | some (f, r) => some (c :: f, r)

/-- The argument-name part of a replacement field: everything before a
conversion (`!`) or format spec (`:`). -/
def fieldName (f : List Char) : List Char :=
  f.takeWhile (fun c => !(c == ':' || c == '!'))

/-- Parses a non-empty all-digit name as a positional index. -/
def parseDigitsAux : List Char → Nat → Option Nat
  | [], acc => some acc
  | c :: rest, acc =>
    if c.isDigit then parseDigitsAux rest (acc * 10 + (c.toNat - 48))
    else none

/-- Parses a non-empty all-digit name as a positional index. -/
def parseDigits : List Char → Option Nat
  | [] => none
  | c :: rest => parseDigitsAux (c :: rest) 0

/-- The `str.format` scanning loop.  `fuel` bounds recursion and is always at
least the number of characters left, so the fuel-exhaustion branch is never
reached from `pyFormat`; `acc` holds the output built so far, reversed. -/
def formatGo (args : List String) :
    Nat → List Char → NumberingMode → Nat → List Char →
      Except FormatError (List Char)
  | _, [], _, _, acc => Except.ok acc.reverse
  | 0, _ :: _, _, _, _ => Except.error FormatError.unmatchedBrace
  | fuel + 1, c :: rest, mode, counter, acc =>
    if c = lbraceChar then
      match rest with
      | [] => Except.error FormatError.unmatchedBrace
      | c2 :: rest2 =>
        if c2 = lbraceChar then
          formatGo args fuel rest2 mode counter (lbraceChar :: acc)
        else
          match spanField (c2 :: rest2) with
          | none => Except.error FormatError.unmatchedBrace
          | some (field, rest3) =>
            if fieldName field = [] then
              match mode with
              | NumberingMode.manual => Except.error FormatError.mixedNumbering
              | _ =>
                match args.get? counter with
                | none => Except.error FormatError.indexOutOfRange
                | some v =>
                    formatGo args fuel rest3 NumberingMode.auto (counter + 1)
                      (v.toList.reverse ++ acc)
            else
              match parseDigits (fieldName field) with
              | some idx =>
                match mode with
                | NumberingMode.auto => Except.error FormatError.mixedNumbering
                | _ =>
                  match args.get? idx with
                  | none => Except.error FormatError.indexOutOfRange
                  | some v =>
                      formatGo args fuel rest3 NumberingMode.manual counter
                        (v.toList.reverse ++ acc)
              | none => Except.error FormatError.keyErrorName
    else if c = rbraceChar then
      match rest with
      | [] => Except.error FormatError.unmatchedBrace
      | c2 :: rest2 =>
        if c2 = rbraceChar then
          formatGo args fuel rest2 mode counter (rbraceChar :: acc)
        else Except.error FormatError.unmatchedBrace
    else
      formatGo args fuel rest mode counter (c :: acc)

/-- `s.format(*args)`. -/
def pyFormat (s : String) (args : List String) : Except FormatError String :=
  (formatGo args s.toList.length s.toList NumberingMode.unset 0 []).map
    (fun cs => String.mk cs)

/-- Embeds the payload cell
`messages=[{ "role":'user', "content":[{'type':'text','text': prompt.format(contexts, query)}]}]`:
the already-interpolated prompt is run through `str.format` a second time,
with the stringified context list and the query as positional arguments. -/
def messageText (contexts : List String) (query : String) :
    Except FormatError String :=
  pyFormat (buildPrompt contexts query) [pyStrOfList contexts, query]

/-- Whether a format run succeeded. -/
def formatOk : Except FormatError String → Bool
  | Except.ok _ => true
  | Except.error _ => false

end BWA

namespace BWA

/-! ## Theorems -/

/-- Helper: a trace stuck at `CREATING` keeps the collection loop running at
every fuel and every starting poll index. -/
theorem collectionWaitFrom_stuck (fuel i : Nat) :
    collectionWaitFrom stuckCollection fuel i = none := by
  induction fuel generalizing i with
  | zero => simp [collectionWaitFrom, stuckCollection]
  | succ n ih => simp [collectionWaitFrom, stuckCollection, ih]

/-- C1, counterexample: against a backend whose collection never leaves
`CREATING`, the collection-creation polling loop is still running after 100
polls — no `ProvisioningTimeout` (indeed no error of any kind) has been
produced within any such budget. -/
theorem collection_poll_no_timeout_at_100 :
    collectionWait stuckCollection 100 = none := by
  exact collectionWaitFrom_stuck 100 0

/-- Helper: whenever the collection loop exits, the status it exits with is
not `CREATING`. -/
theorem collectionWaitFrom_ne_CREATING (statuses : Nat → CollStatus) :
    ∀ fuel i s, collectionWaitFrom statuses fuel i = some s →
      s ≠ CollStatus.CREATING := by
  intro fuel
  induction fuel with
  | zero =>
    intro i s h
    by_cases hc : statuses i = CollStatus.CREATING
    · simp [collectionWaitFrom, hc] at h
    · simp [collectionWaitFrom, hc] at h
      subst h
      exact hc
  | succ n ih =>
    intro i s h
    by_cases hc : statuses i = CollStatus.CREATING
    · simp [collectionWaitFrom, hc] at h
      exact ih (i + 1) s h
    · simp [collectionWaitFrom, hc] at h
      subst h
      exact hc

/-- C1, amended: the collection polling loop has no wait budget and no timeout
error.  Against a backend that never leaves `CREATING` it is, for every number
of unfolded iterations, still polling; and whenever it does terminate, it does
so because a poll returned a status other than `CREATING` — never with a
timeout. -/
theorem collection_poll_unbounded :
    (∀ fuel, collectionWait stuckCollection fuel = none) ∧
      (∀ statuses fuel s, collectionWait statuses fuel = some s →
        s ≠ CollStatus.CREATING) :=
  ⟨fun fuel => collectionWaitFrom_stuck fuel 0,
   fun statuses fuel s h => collectionWaitFrom_ne_CREATING statuses fuel 0 s h⟩

/-- Witness for `collection_poll_unbounded`: instantiating it at the
always-`ACTIVE` trace (loop exits at once with `ACTIVE`) and at fuel 5 for the
stuck trace. -/
theorem collection_poll_unbounded_witness :
    CollStatus.ACTIVE ≠ CollStatus.CREATING ∧
      collectionWait stuckCollection 5 = none :=
  ⟨collection_poll_unbounded.2 (fun _ => CollStatus.ACTIVE) 0 CollStatus.ACTIVE rfl,
   collection_poll_unbounded.1 5⟩

/-- Helper: a trace that never reports `COMPLETE` keeps the ingestion loop
running at every fuel and every starting poll index. -/
theorem ingestionWaitFrom_never_complete (statuses : Nat → JobStatus)
    (hnc : ∀ j, statuses j ≠ JobStatus.COMPLETE) :
    ∀ fuel i, ingestionWaitFrom statuses fuel i = none := by
  intro fuel
  induction fuel with
  | zero =>
    intro i
    simp [ingestionWaitFrom, hnc i]
  | succ n ih =>
    intro i
    simp [ingestionWaitFrom, hnc i, ih (i + 1)]

/-- Helper: `failedJobTrace` never reports `COMPLETE`. -/
theorem failedJobTrace_ne_COMPLETE (j : Nat) :
    failedJobTrace j ≠ JobStatus.COMPLETE := by
  unfold failedJobTrace
  by_cases h0 : j = 0
  · simp [h0]
  · by_cases h1 : j = 1
    · simp [h0, h1]
    · simp [h0, h1]

/-- C2, counterexample: for a job whose polled statuses are `STARTING`,
`IN_PROGRESS`, then `FAILED` forever (a terminal failure), the ingestion loop
is still polling after 100 re-polls: it has not terminated and no error
carrying the failure reason has been surfaced. -/
theorem ingestion_poll_ignores_FAILED :
    ingestionWait failedJobTrace 100 = none :=
  ingestionWaitFrom_never_complete failedJobTrace failedJobTrace_ne_COMPLETE 100 0

/-- Helper: whenever the ingestion loop exits, the status it exits with is
`COMPLETE`. -/
theorem ingestionWaitFrom_some_COMPLETE (statuses : Nat → JobStatus) :
    ∀ fuel i s, ingestionWaitFrom statuses fuel i = some s →
      s = JobStatus.COMPLETE := by
  intro fuel
  induction fuel with
  | zero =>
    intro i s h
    by_cases hc : statuses i = JobStatus.COMPLETE
    · simp [ingestionWaitFrom, hc] at h
      exact h.symm
    · simp [ingestionWaitFrom, hc] at h
  | succ n ih =>
    intro i s h
    by_cases hc : statuses i = JobStatus.COMPLETE
    · simp [ingestionWaitFrom, hc] at h
      exact h.symm
    · simp [ingestionWaitFrom, hc] at h
      exact ih (i + 1) s h

/-- C2, amended: the ingestion polling loop treats only `COMPLETE` as
terminal.  Whenever it exits, the job status it exits with is `COMPLETE`; for
a trace that reaches the terminal state `FAILED` (and hence never reports
`COMPLETE`) it polls forever — for every number of unfolded iterations it is
still running, and no error carrying the job's failure reason is surfaced. -/
theorem ingestion_poll_only_COMPLETE :
    (∀ statuses fuel s, ingestionWait statuses fuel = some s →
        s = JobStatus.COMPLETE) ∧
      (∀ statuses, (∀ j, statuses j ≠ JobStatus.COMPLETE) →
        ∀ fuel, ingestionWait statuses fuel = none) :=
  ⟨fun statuses fuel s h => ingestionWaitFrom_some_COMPLETE statuses fuel 0 s h,
   fun statuses hnc fuel => ingestionWaitFrom_never_complete statuses hnc fuel 0⟩

/-- Witness for `ingestion_poll_only_COMPLETE`: instantiating it at the
always-`COMPLETE` trace (the loop exits at once) and at the failing trace with
fuel 5. -/
theorem ingestion_poll_only_COMPLETE_witness :
    JobStatus.COMPLETE = JobStatus.COMPLETE ∧
      ingestionWait failedJobTrace 5 = none :=
  ⟨ingestion_poll_only_COMPLETE.1 (fun _ => JobStatus.COMPLETE) 0 JobStatus.COMPLETE rfl,
   ingestion_poll_only_COMPLETE.2 failedJobTrace failedJobTrace_ne_COMPLETE 5⟩

/-- C3, counterexample: a provisioning run against a backend on which every
resource already exists still issues creation calls for the collection and
the index — two duplicate-creation calls, not zero; in particular
`create_collection` is called even though the collection exists. -/
theorem provision_rerun_duplicates :
    provisionCreateCalls allExisting =
      [Resource.collection, Resource.index] := by
  decide

/-- C3, amended: only the bucket step is guarded by an existence check — the
bucket creation call is issued exactly when the bucket does not already exist
— while the collection and index creation calls are issued on every run
regardless of what already exists; the knowledge-base and data-source
creation calls are never issued at all (their defining cell is markdown, so
the call site raises `NameError`, and a straight run has already halted at
the download cell's `IndexError` before reaching them). -/
theorem provision_only_bucket_guarded (e : ExistingResources) :
    (Resource.bucket ∈ provisionCreateCalls e ↔ e.bucket = false) ∧
      Resource.collection ∈ provisionCreateCalls e ∧
      Resource.index ∈ provisionCreateCalls e ∧
      Resource.knowledgeBase ∉ provisionCreateCalls e ∧
      Resource.dataSource ∉ provisionCreateCalls e := by
  unfold provisionCreateCalls
  rcases e with ⟨b, c, i, k, d⟩
  cases b <;> simp

/-- C4, counterexample: a generation backend that throttles twice and then
succeeds makes the generation step return the throttling error of the very
first attempt — not the successful result after 2 retries — because the step
performs no retries at all. -/
theorem generate_no_retry_on_throttle :
    invoke_generate (throttleTwiceBackend "ok") =
      Except.error GenError.throttled := by
  rfl

/-- C4, amended: the generation step performs exactly one attempt — its result
is the first attempt's outcome for every backend, so a throttling error
propagates immediately with zero retries (the notebook's only explicit retry
configuration sets `max_attempts` to 0, and the `invoke_model` cell has no
retry loop). -/
theorem generate_single_attempt (backend : Nat → Except GenError String) :
    invoke_generate backend = backend 0 := by
  unfold invoke_generate bedrock_config_max_attempts retryCall
  rfl

/-- C5, counterexample: the request produced by `retrieve` carries the
hard-wired `HYBRID` search mode (here for a concrete query, knowledge-base id
and result count), and the LangChain retriever configuration carries the
hard-wired `SEMANTIC` mode — the caller passes no search mode. -/
theorem retrieve_mode_hardwired :
    (retrieveRequest "What is S3?" "kb-123" 5).vectorSearchConfiguration.overrideSearchType =
        SearchMode.HYBRID ∧
      langchainRetrievalConfig.overrideSearchType = SearchMode.SEMANTIC := by
  decide

/-- C5, amended: `retrieve` has no search-mode parameter; for every query,
knowledge-base id and result count, the single external call it issues uses
the fixed constant `HYBRID` as its `overrideSearchType` (and the LangChain
retriever cell fixes `SEMANTIC`), so the mode used never varies with the
caller's input. -/
theorem retrieve_mode_constant (query kbId : String) (numberOfResults : Nat)
    (query2 kbId2 : String) (numberOfResults2 : Nat) :
    (retrieveRequest query kbId numberOfResults).vectorSearchConfiguration.overrideSearchType =
        SearchMode.HYBRID ∧
      (retrieveRequest query kbId numberOfResults).vectorSearchConfiguration.overrideSearchType =
        (retrieveRequest query2 kbId2 numberOfResults2).vectorSearchConfiguration.overrideSearchType := by
  exact ⟨rfl, rfl⟩

/-- Helper: the `get_contexts` accumulator loop is the map of the text field
over the result list, in order. -/
theorem get_contexts_eq_map (rs : List RetrievalResult) :
    get_contexts rs = rs.map (fun r => r.content.text) := by
  have key : ∀ (l : List RetrievalResult) (acc : List String),
      l.foldl (fun contexts r => contexts ++ [r.content.text]) acc =
        acc ++ l.map (fun r => r.content.text) := by
    intro l
    induction l with
    | nil => intro acc; simp
    | cons r rest ih => intro acc; simp [List.foldl, ih]
  simpa using key rs []

/-- C6: the retrieval step hands back exactly the backend's response list, and
`get_contexts` extracts the passage texts as an order-preserving map — no
re-sorting, insertion or deletion; when the backend's response holds at most
`numberOfResults` entries so does the extracted sequence; and a response with
zero matches yields the empty sequence, not an error. -/
theorem retrieve_preserves_backend_order
    (backend : RetrieveRequest → List RetrievalResult)
    (query kbId : String) (numberOfResults : Nat)
    (hlen : (backend (retrieveRequest query kbId numberOfResults)).length ≤
      numberOfResults) :
    retrieveCall backend query kbId numberOfResults =
        backend (retrieveRequest query kbId numberOfResults) ∧
      get_contexts (retrieveCall backend query kbId numberOfResults) =
        (backend (retrieveRequest query kbId numberOfResults)).map
          (fun r => r.content.text) ∧
      (get_contexts (retrieveCall backend query kbId numberOfResults)).length ≤
        numberOfResults ∧
      (backend (retrieveRequest query kbId numberOfResults) = [] →
        get_contexts (retrieveCall backend query kbId numberOfResults) = []) := by
  refine ⟨rfl, get_contexts_eq_map _, ?_, ?_⟩
  · rw [show retrieveCall backend query kbId numberOfResults =
        backend (retrieveRequest query kbId numberOfResults) from rfl,
      get_contexts_eq_map, List.length_map]
    exact hlen
  · intro h
    rw [show retrieveCall backend query kbId numberOfResults =
        backend (retrieveRequest query kbId numberOfResults) from rfl, h]
    rfl

/-- Witness for `retrieve_preserves_backend_order`: the spec's stub backend
with scores 0.9, 0.7, 0.5 — the extracted contexts are exactly the stub's
passage texts in the stub's order. -/
theorem retrieve_preserves_backend_order_witness :
    get_contexts (retrieveCall threeScoreBackend "What is S3?" "kb-123" 5) =
        (threeScoreBackend (retrieveRequest "What is S3?" "kb-123" 5)).map
          (fun r => r.content.text) ∧
      get_contexts (retrieveCall threeScoreBackend "What is S3?" "kb-123" 5) =
        ["A", "B", "C"] :=
  ⟨(retrieve_preserves_backend_order threeScoreBackend "What is S3?" "kb-123" 5
      (by decide)).2.1,
   rfl⟩

/-- C8: the repository's configured chunking policy — and with it every
chunking policy the code constructs — satisfies the invariant: `maxTokens` is
a positive token count and the overlap fraction `overlapPercentage / 100`
lies in `[0, 1)`. -/
theorem chunking_policy_invariant :
    chunkingInvariant chunkingStrategyConfiguration ∧
      ∀ c ∈ configuredChunkingPolicies, chunkingInvariant c := by
  have h : chunkingInvariant chunkingStrategyConfiguration := by
    refine ⟨?_, ?_, ?_⟩ <;> norm_num [chunkingStrategyConfiguration, chunkingInvariant]
  refine ⟨h, ?_⟩
  intro c hc
  have : c = chunkingStrategyConfiguration := by
    simpa [configuredChunkingPolicies] using hc
  rw [this]
  exact h

/-- Witness for `chunking_policy_invariant`: instantiating the second conjunct
at the configured policy itself. -/
theorem chunking_policy_invariant_witness :
    chunkingInvariant chunkingStrategyConfiguration :=
  chunking_policy_invariant.2 chunkingStrategyConfiguration (by decide)

/-- C9: the download cell iterates over 16 URLs but its `filenames` list has
only 14 elements (two adjacent literals lacking a comma were concatenated),
so the loop downloads 14 documents and then raises `IndexError` at index 14 —
it never reaches the last two URLs, and the subsequent upload step never sees
the full 16-document set. -/
theorem download_loop_index_error :
    urls.length = 16 ∧ filenames.length = 14 ∧
      downloadLoop = Except.error 14 ∧
      (downloadedBeforeStop filenames urls 0 []).length = 14 ∧
      (downloadedBeforeStop filenames urls 0 []).length < urls.length := by
  refine ⟨rfl, rfl, rfl, rfl, ?_⟩
  decide

set_option maxRecDepth 8000

/-- C7, counterexample: for passages `["Q"]` and query `"Q"` the built prompt
contains the query text twice — once in the rendered context block and once
in the question slot — so "contains the query exactly once" fails for a
passage list whose text contains the query. -/
theorem prompt_query_occurs_twice :
    countOccs (buildPrompt ["Q"] "Q").toList "Q".toList = 2 := by
  decide

/-- C7, amended: for the repository's template with the spec's test inputs —
passages `["A", "B"]` and query `"Q"`, whose texts occur neither in the
template nor in each other — the built prompt contains "A" before "B"
(order preserved) and contains "Q" exactly once, and that occurrence sits in
the question slot between the `<question>` delimiters. -/
theorem prompt_order_and_query_slot :
    containsBefore (buildPrompt ["A", "B"] "Q").toList "A".toList "B".toList = true ∧
      countOccs (buildPrompt ["A", "B"] "Q").toList "Q".toList = 1 ∧
      occursIn (buildPrompt ["A", "B"] "Q").toList
        ("<question>\nQ\n</question>").toList = true := by
  refine ⟨?_, ?_, ?_⟩ <;> decide

/-- C10, counterexample: a passage whose text is the brace pair `{}` does not
make the second substitution raise — `str.format` treats it as a replacement
field and substitutes the call's first positional argument, returning a
(changed) prompt successfully. -/
theorem format_braces_can_succeed :
    formatOk (messageText ["\x7b\x7d"] "q") = true := by
  decide

/-- Helper: on a brace-free input the `str.format` scanner copies the input
unchanged (given enough fuel, which `pyFormat` always supplies). -/
theorem formatGo_no_braces (args : List String) :
    ∀ (cs : List Char) (fuel : Nat) (mode : NumberingMode) (counter : Nat)
      (acc : List Char),
      cs.length ≤ fuel →
      (∀ c ∈ cs, c ≠ lbraceChar ∧ c ≠ rbraceChar) →
      formatGo args fuel cs mode counter acc = Except.ok (acc.reverse ++ cs) := by
  intro cs
  induction cs with
  | nil =>
    intro fuel mode counter acc _ _
    cases fuel <;> simp [formatGo]
  | cons c rest ih =>
    intro fuel mode counter acc hlen hbr
    cases fuel with
    | zero => simp at hlen
    | succ n =>
      have hc := hbr c (List.mem_cons_self c rest)
      have hrest : ∀ x ∈ rest, x ≠ lbraceChar ∧ x ≠ rbraceChar :=
        fun x hx => hbr x (List.mem_cons_of_mem c hx)
      have hlen' : rest.length ≤ n := by
        simpa using hlen
      simp only [formatGo]
      rw [if_neg hc.1, if_neg hc.2, ih n mode counter (c :: acc) hlen' hrest]
      simp

/-- Helper: `pyFormat` is the identity on brace-free strings. -/
theorem pyFormat_id_of_braceFree (s : String) (args : List String)
    (h : ∀ c ∈ s.toList, c ≠ lbraceChar ∧ c ≠ rbraceChar) :
    pyFormat s args = Except.ok s := by
  unfold pyFormat
  rw [formatGo_no_braces args s.toList s.toList.length NumberingMode.unset 0 []
    le_rfl h]
  cases s with
  | mk data => simp [Except.map, String.toList]

/-- C10, amended: the assembled prompt is passed through a second
substitution, `prompt.format(contexts, query)`.  When the assembled prompt
contains no brace character the second substitution returns it unchanged
(for any arguments); but brace characters in the interpolated text are
re-interpreted, not always fatally: an unmatched brace — e.g. a passage
containing a lone `{` — raises a formatting error, while a complete
replacement field such as `{}` is substituted again instead of raising. -/
theorem second_substitution_double_format (s : String) (args : List String)
    (h : ∀ c ∈ s.toList, c ≠ lbraceChar ∧ c ≠ rbraceChar) :
    pyFormat s args = Except.ok s ∧
      messageText ["a\x7bb"] "q" = Except.error FormatError.unmatchedBrace := by
  exact ⟨pyFormat_id_of_braceFree s args h, by rfl⟩

/-- Witness for `second_substitution_double_format`: a concrete brace-free
prompt string is returned unchanged, and the lone-brace passage raises. -/
theorem second_substitution_double_format_witness :
    pyFormat "hello" ["x"] = Except.ok "hello" ∧
      messageText ["a\x7bb"] "q" = Except.error FormatError.unmatchedBrace :=
  second_substitution_double_format "hello" ["x"] (by decide)

end BWA
